import Mathlib

/-!
Verification of the Godot-Slot-Machine bridge (`GameBridge.py`).

The repository contains a single source file: a bridge exposing a slot
machine backend (`GameManager`) to the Godot engine as JSON snapshots.
The backend itself (GameManager, build_snapshot, scoring) is not part of
the repository; the bridge calls into it.  We embed the bridge faithfully
and model the backend as an abstract structure of pure functions over an
opaque state type, following the specification's contract for the parts
the bridge relies on.
-/

namespace GameBridge

/-- Modelled from the spec: the ScoringResult produced by the backend spin.
Its internals (matched lines, payouts) are not in the repository source;
we represent it abstractly as a list of named integer fields, which is all
the bridge ever does with it (it is passed opaquely into the snapshot). -/
structure Scoring where
  fields : List (String × Int)
deriving DecidableEq, Repr

/-- Result record returned by the backend `place_bet`: a `success` flag and
an optional `error` kind, as used by `GameBridge.spin` via
`result.get("success")` and `result.get("error", "bet_failed")`. -/
structure BetResult where
  success : Bool
  error : Option String
deriving DecidableEq, Repr

/-- Result record returned by backend shop operations: a `success` flag,
an optional `error` kind and an optional `error_key` kind (the bridge reads
`error_key` for buy_offer and `error` for the other shop operations). -/
structure OpResult where
  success : Bool
  error : Option String
  error_key : Option String
deriving DecidableEq, Repr

/-- Modelled from the spec: the backend (`GameManager` plus the snapshot
builder's inputs), which is outside the repository source.  The bridge
observes it only through these operations; per the spec they are pure,
deterministic functions of the game state (all randomness is drawn from
the seeded RNG held inside the state).  `σ` is the opaque GameManager
state type. -/
structure Backend (σ : Type) where
  tokens : σ → Int
  phase : σ → String
  grid : σ → List (List (Option String))
  rngSeed : σ → Int
  getResourceStat : σ → String → Int
  mkGame : Option Int → σ
  startRound : σ → σ
  endRound : σ → σ
  placeBet : σ → Int → BetResult × σ
  doSpin : σ → Scoring × σ
  enterShop : σ → σ
  leaveShop : σ → σ
  buyFaceUpOffer : σ → Int → OpResult × σ
  openPack : σ → Int → OpResult × σ
  pickPackItem : σ → Int → OpResult × σ
  skipPack : σ → σ
  refreshShop : σ → OpResult × σ

/-- Modelled from the spec: the snapshot record produced by
`build_snapshot(game, pending_bet, scoring_result?)` — a pure projection
of the game state that must include tokens, phase, the grid as symbol
names, the pending-bet overlay, and the scoring result when provided. -/
structure BaseSnap where
  tokens : Int
  phase : String
  grid : List (List (Option String))
  pending_bet : Int
  scoring : Option Scoring
deriving DecidableEq, Repr

/-- The `build_snapshot` call as the bridge uses it. -/
def buildSnapshot {σ : Type} (b : Backend σ) (g : σ) (pending : Int)
    (sc : Option Scoring) : BaseSnap :=
  { tokens := b.tokens g, phase := b.phase g, grid := b.grid g,
    pending_bet := pending, scoring := sc }

/-- A snapshot as the bridge returns it: the base record from
`build_snapshot` plus the optional keys the bridge itself writes into the
dict afterwards (`seed`, `error`, `grid_indices`). -/
structure Snapshot where
  base : BaseSnap
  seedField : Option Int
  errorField : Option String
  gridIndices : Option (List (List Int))
deriving DecidableEq, Repr

/-- A bridge method's serialized return value: either the bare record
`json.dumps(\x7b"error": e\x7d)` or a full snapshot record. -/
inductive BridgeResult where
  | bare (error : String)
  | snap (s : Snapshot)
deriving DecidableEq, Repr

/-- The bridge node's own mutable state: `self.game` (None until new_game)
and `self.pending_bet`. -/
structure BridgeState (σ : Type) where
  game : Option σ
  pending_bet : Int
deriving DecidableEq, Repr

/-- The bridge methods, one constructor per public operation. -/
inductive Op where
  | newGame (seed : Int)
  | startRound
  | endRound
  | insertToken
  | removeToken
  | spin
  | getSnapshot
  | enterShop
  | leaveShop
  | buyOffer (i : Int)
  | openPack (i : Int)
  | pickFromPack (i : Int)
  | skipPack
  | refreshShop
deriving DecidableEq, Repr

/-- Whether an operation is `new_game` (the only one that works without an
active game). -/
def Op.isNewGame : Op → Bool
  | .newGame _ => true
  | _ => false

/-- Whether an operation is one of the seven shop methods. -/
def Op.isShopOp : Op → Bool
  | .enterShop => true
  | .leaveShop => true
  | .buyOffer _ => true
  | .openPack _ => true
  | .pickFromPack _ => true
  | .skipPack => true
  | .refreshShop => true
  | _ => false

/-- The `SYMBOL_TO_INDEX` dict from GameBridge.py, as an association list
in the source's insertion order. -/
def SYMBOL_TO_INDEX : List (String × Int) :=
  [("cherry", 0), ("strawberry", 1), ("seven", 2), ("lemon", 3),
   ("banana", 4), ("bell", 5), ("watermelon", 6), ("green_apple", 7),
   ("clover", 8), ("unknown", 9), ("rainbow", 10)]

/-- The `INDEX_TO_SYMBOL` reverse dict: `{v: k for k, v in SYMBOL_TO_INDEX.items()}`. -/
def INDEX_TO_SYMBOL : List (Int × String) :=
  SYMBOL_TO_INDEX.map (fun p => (p.2, p.1))

/-- `GameBridge.get_symbol_index`: `SYMBOL_TO_INDEX.get(symbol_name, 0)`. -/
def get_symbol_index (symbol_name : String) : Int :=
  (SYMBOL_TO_INDEX.lookup symbol_name).getD 0

/-- `GameBridge.get_symbol_name`: `INDEX_TO_SYMBOL.get(index, "cherry")`. -/
def get_symbol_name (index : Int) : String :=
  (INDEX_TO_SYMBOL.lookup index).getD "cherry"

/-- The per-cell translation inside `_grid_to_indices`: `9` for a `None`
cell, otherwise `SYMBOL_TO_INDEX.get(symbol_name, 9)`.  A non-None cell is
modelled by the string name the source extracts from it (`cell.name` when
present, else `str(cell)`). -/
def cellIndex (cell : Option String) : Int :=
  match cell with
  | none => 9
  | some nm => (SYMBOL_TO_INDEX.lookup nm).getD 9

/-- The loop body of `GameBridge._grid_to_indices` on a given grid:
`rows = len(grid)`, `cols = len(grid[0]) if rows > 0 else 0`, then the
column-major traversal building `result[col][row]`.  The empty-grid early
return (`if ... not grid: return []`) is included. -/
def gridToIndices (grid : List (List (Option String))) : List (List Int) :=
  if grid.isEmpty then []
  else
    let rows := grid.length
    let cols := (grid.headD []).length
    (List.range cols).map (fun col =>
      (List.range rows).map (fun row =>
        cellIndex ((grid.getD row []).getD col none)))

/-- `GameBridge._grid_to_indices` including the `not self.game` early
return. -/
def gridIndicesOf {σ : Type} (b : Backend σ) (game : Option σ) :
    List (List Int) :=
  match game with
  | none => []
  | some g => gridToIndices (b.grid g)

/-- One bridge method call: `bridgeStep b st op = (new bridge state,
serialized return value)`.  Each branch transcribes the corresponding
method of GameBridge.py. -/
def bridgeStep {σ : Type} (b : Backend σ) (st : BridgeState σ) :
    Op → BridgeState σ × BridgeResult
  | .newGame seed =>
      let g := b.mkGame (if seed ≠ 0 then some seed else none)
      (⟨some g, 0⟩,
       .snap ⟨buildSnapshot b g 0 none, some (b.rngSeed g), none, none⟩)
  | .startRound =>
      match st.game with
      | none => (st, .bare "no_game")
      | some g =>
          let g2 := b.startRound g
          (⟨some g2, 0⟩, .snap ⟨buildSnapshot b g2 0 none, none, none, none⟩)
  | .endRound =>
      match st.game with
      | none => (st, .bare "no_game")
      | some g =>
          let g2 := b.endRound g
          (⟨some g2, 0⟩, .snap ⟨buildSnapshot b g2 0 none, none, none, none⟩)
  | .insertToken =>
      match st.game with
      | none => (st, .bare "no_game")
      | some g =>
          let maxBet := b.getResourceStat g "max_bet"
          let effectiveTokens := b.tokens g - st.pending_bet
          if st.pending_bet ≥ maxBet then
            (st, .snap ⟨buildSnapshot b g st.pending_bet none, none,
                        some "max_bet_reached", none⟩)
          else if effectiveTokens ≤ 0 then
            (st, .snap ⟨buildSnapshot b g st.pending_bet none, none,
                        some "no_tokens", none⟩)
          else
            (⟨some g, st.pending_bet + 1⟩,
             .snap ⟨buildSnapshot b g (st.pending_bet + 1) none, none, none, none⟩)
  | .removeToken =>
      match st.game with
      | none => (st, .bare "no_game")
      | some g =>
          if st.pending_bet ≤ 0 then
            (st, .snap ⟨buildSnapshot b g st.pending_bet none, none,
                        some "no_bet_to_remove", none⟩)
          else
            (⟨some g, st.pending_bet - 1⟩,
             .snap ⟨buildSnapshot b g (st.pending_bet - 1) none, none, none, none⟩)
  | .spin =>
      match st.game with
      | none => (st, .bare "no_game")
      | some g =>
          if st.pending_bet > 0 then
            let pr := b.placeBet g st.pending_bet
            if pr.1.success = false then
              (⟨some pr.2, st.pending_bet⟩,
               .snap ⟨buildSnapshot b pr.2 st.pending_bet none, none,
                      some (pr.1.error.getD "bet_failed"), none⟩)
            else
              let sr := b.doSpin pr.2
              (⟨some sr.2, 0⟩,
               .snap ⟨buildSnapshot b sr.2 0 (some sr.1), none, none,
                      some (gridIndicesOf b (some sr.2))⟩)
          else
            let sr := b.doSpin g
            (⟨some sr.2, 0⟩,
             .snap ⟨buildSnapshot b sr.2 0 (some sr.1), none, none,
                    some (gridIndicesOf b (some sr.2))⟩)
  | .getSnapshot =>
      match st.game with
      | none => (st, .bare "no_game")
      | some g =>
          (st, .snap ⟨buildSnapshot b g st.pending_bet none, none, none,
                      some (gridIndicesOf b (some g))⟩)
  | .enterShop =>
      match st.game with
      | none => (st, .bare "no_game")
      | some g =>
          let g2 := b.enterShop g
          (⟨some g2, st.pending_bet⟩,
           .snap ⟨buildSnapshot b g2 0 none, none, none, none⟩)
  | .leaveShop =>
      match st.game with
      | none => (st, .bare "no_game")
      | some g =>
          let g2 := b.leaveShop g
          (⟨some g2, st.pending_bet⟩,
           .snap ⟨buildSnapshot b g2 0 none, none, none, none⟩)
  | .buyOffer i =>
      match st.game with
      | none => (st, .bare "no_game")
      | some g =>
          let r := b.buyFaceUpOffer g i
          let err := if r.1.success then none
                     else some (r.1.error_key.getD "buy_failed")
          (⟨some r.2, st.pending_bet⟩,
           .snap ⟨buildSnapshot b r.2 0 none, none, err, none⟩)
  | .openPack i =>
      match st.game with
      | none => (st, .bare "no_game")
      | some g =>
          let r := b.openPack g i
          let err := if r.1.success then none
                     else some (r.1.error.getD "pack_failed")
          (⟨some r.2, st.pending_bet⟩,
           .snap ⟨buildSnapshot b r.2 0 none, none, err, none⟩)
  | .pickFromPack i =>
      match st.game with
      | none => (st, .bare "no_game")
      | some g =>
          let r := b.pickPackItem g i
          let err := if r.1.success then none
                     else some (r.1.error.getD "pick_failed")
          (⟨some r.2, st.pending_bet⟩,
           .snap ⟨buildSnapshot b r.2 0 none, none, err, none⟩)
  | .skipPack =>
      match st.game with
      | none => (st, .bare "no_game")
      | some g =>
          let g2 := b.skipPack g
          (⟨some g2, st.pending_bet⟩,
           .snap ⟨buildSnapshot b g2 0 none, none, none, none⟩)
  | .refreshShop =>
      match st.game with
      | none => (st, .bare "no_game")
      | some g =>
          let r := b.refreshShop g
          let err := if r.1.success then none
                     else some (r.1.error.getD "refresh_failed")
          (⟨some r.2, st.pending_bet⟩,
           .snap ⟨buildSnapshot b r.2 0 none, none, err, none⟩)

/-- Run a sequence of bridge calls, keeping only the final bridge state. -/
def runOps {σ : Type} (b : Backend σ) (st : BridgeState σ) :
    List Op → BridgeState σ
  | [] => st
  | op :: rest => runOps b (bridgeStep b st op).1 rest

/-- Run a sequence of bridge calls, collecting each call's serialized
return value. -/
def runTrace {σ : Type} (b : Backend σ) (st : BridgeState σ) :
    List Op → List BridgeResult
  | [] => []
  | op :: rest =>
      let r := bridgeStep b st op
      r.2 :: runTrace b r.1 rest

/-- A concrete instantiation of the backend used to witness theorems. -/
structure DemoGM where
  tokens : Int
  maxBet : Int
  grid : List (List (Option String))
  seed : Int
  phase : String
deriving DecidableEq, Repr

/-- A concrete deterministic backend over `DemoGM`, used only to witness
the theorems at concrete inputs. -/
def demoBackend : Backend DemoGM :=
  { tokens := fun g => g.tokens
    phase := fun g => g.phase
    grid := fun g => g.grid
    rngSeed := fun g => g.seed
    getResourceStat := fun g nm => if nm = "max_bet" then g.maxBet else 0
    mkGame := fun s => ⟨10, 5, [[some "cherry", some "seven"]], s.getD 42, "idle"⟩
    startRound := fun g => { g with phase := "round" }
    endRound := fun g => { g with phase := "idle" }
    placeBet := fun g amt =>
      if 0 < amt ∧ amt ≤ g.tokens then
        (⟨true, none⟩, { g with tokens := g.tokens - amt })
      else
        (⟨false, some "insufficient_tokens"⟩, g)
    doSpin := fun g => (⟨[("total", 1)]⟩, { g with tokens := g.tokens + 1 })
    enterShop := fun g => { g with phase := "shop" }
    leaveShop := fun g => { g with phase := "round" }
    buyFaceUpOffer := fun g _ => (⟨true, none, none⟩, g)
    openPack := fun g _ => (⟨true, none, none⟩, g)
    pickPackItem := fun g _ => (⟨true, none, none⟩, g)
    skipPack := fun g => g
    refreshShop := fun g => (⟨true, none, none⟩, g) }

/-- A concrete game state used by the witness theorems. -/
def demoG : DemoGM := demoBackend.mkGame (some 7)

/-- A concrete 2-row, 3-column grid used by the witness theorems. -/
def demoGrid : List (List (Option String)) :=
  [[some "cherry", some "lemon", none],
   [some "seven", some "nope", some "rainbow"]]

/-- Helper: one insert_token or remove_token call keeps the same
GameManager and preserves `0 ≤ pending_bet ≤ min(tokens, max_bet)`. -/
lemma insRem_step_inv {σ : Type} (b : Backend σ) (g : σ) (p : Int)
    (op : Op) (hop : op = Op.insertToken ∨ op = Op.removeToken)
    (h0 : 0 ≤ p)
    (h1 : p ≤ min (b.tokens g) (b.getResourceStat g "max_bet")) :
    (bridgeStep b ⟨some g, p⟩ op).1.game = some g ∧
    0 ≤ (bridgeStep b ⟨some g, p⟩ op).1.pending_bet ∧
    (bridgeStep b ⟨some g, p⟩ op).1.pending_bet ≤
      min (b.tokens g) (b.getResourceStat g "max_bet") := by
  rcases h1.trans_eq (min_def _ _) with h1'
  rcases hop with h | h <;> subst h <;>
    simp only [bridgeStep] <;> split_ifs <;>
    refine ⟨rfl, ?_, ?_⟩ <;>
    simp only [le_min_iff] at h1 ⊢ <;> omega

/-- Helper: any sequence of insert_token / remove_token calls keeps the
same GameManager and preserves the pending-bet invariant. -/
lemma insRem_runOps_inv {σ : Type} (b : Backend σ) (g : σ) (ops : List Op)
    (hops : ∀ op ∈ ops, op = Op.insertToken ∨ op = Op.removeToken) :
    ∀ p : Int, 0 ≤ p →
      p ≤ min (b.tokens g) (b.getResourceStat g "max_bet") →
      (runOps b ⟨some g, p⟩ ops).game = some g ∧
      0 ≤ (runOps b ⟨some g, p⟩ ops).pending_bet ∧
      (runOps b ⟨some g, p⟩ ops).pending_bet ≤
        min (b.tokens g) (b.getResourceStat g "max_bet") := by
  induction ops with
  | nil => intro p h0 h1; exact ⟨rfl, h0, h1⟩
  | cons op rest ih =>
      intro p h0 h1
      have hop := hops op (List.mem_cons_self _ _)
      obtain ⟨hg, hp0, hp1⟩ := insRem_step_inv b g p op hop h0 h1
      have hmid : (bridgeStep b ⟨some g, p⟩ op).1 =
          ⟨some g, (bridgeStep b ⟨some g, p⟩ op).1.pending_bet⟩ := by
        cases hmid' : (bridgeStep b ⟨some g, p⟩ op).1 with
        | mk gm pb => rw [hmid'] at hg; simp at hg; simp [hg]
      simp only [runOps]
      rw [hmid]
      exact ih (fun o ho => hops o (List.mem_cons_of_mem _ ho)) _ hp0 hp1

/-- C1: for an active game with fixed tokens and max_bet (both
nonnegative, per the data model), after any sequence of insert_token and
remove_token calls starting from a reset pending bet, the bridge's
pending_bet satisfies `0 ≤ pending_bet ≤ min(tokens, max_bet)`: insert
rejects when `pending_bet ≥ max_bet` or `tokens - pending_bet ≤ 0`, and
remove rejects when `pending_bet ≤ 0`. -/
theorem pending_bet_invariant {σ : Type} (b : Backend σ) (g : σ)
    (htok : 0 ≤ b.tokens g)
    (hmax : 0 ≤ b.getResourceStat g "max_bet")
    (ops : List Op)
    (hops : ∀ op ∈ ops, op = Op.insertToken ∨ op = Op.removeToken) :
    0 ≤ (runOps b ⟨some g, 0⟩ ops).pending_bet ∧
    (runOps b ⟨some g, 0⟩ ops).pending_bet ≤
      min (b.tokens g) (b.getResourceStat g "max_bet") := by
  obtain ⟨_, h0, h1⟩ :=
    insRem_runOps_inv b g ops hops 0 le_rfl (le_min htok hmax)
  exact ⟨h0, h1⟩

/-- Witness for C1 at a concrete backend, game and call sequence. -/
theorem pending_bet_invariant_witness :
    0 ≤ (runOps demoBackend ⟨some demoG, 0⟩
          [Op.insertToken, Op.insertToken, Op.removeToken]).pending_bet ∧
    (runOps demoBackend ⟨some demoG, 0⟩
          [Op.insertToken, Op.insertToken, Op.removeToken]).pending_bet ≤
      min (demoBackend.tokens demoG)
          (demoBackend.getResourceStat demoG "max_bet") :=
  pending_bet_invariant demoBackend demoG (by decide) (by decide)
    [Op.insertToken, Op.insertToken, Op.removeToken] (by decide)

/-- C5: for an active game, insert_token with `pending_bet ≥ max_bet`
returns the snapshot plus error "max_bet_reached"; insert_token with
`pending_bet < max_bet` and `tokens - pending_bet ≤ 0` returns the
snapshot plus error "no_tokens"; remove_token with `pending_bet ≤ 0`
returns the snapshot plus error "no_bet_to_remove"; in each case the
bridge state (hence pending_bet) is unchanged. -/
theorem insert_remove_error_cases {σ : Type} (b : Backend σ)
    (st : BridgeState σ) (g : σ) (hg : st.game = some g) :
    (st.pending_bet ≥ b.getResourceStat g "max_bet" →
      bridgeStep b st .insertToken =
        (st, .snap ⟨buildSnapshot b g st.pending_bet none, none,
                    some "max_bet_reached", none⟩)) ∧
    (st.pending_bet < b.getResourceStat g "max_bet" →
      b.tokens g - st.pending_bet ≤ 0 →
      bridgeStep b st .insertToken =
        (st, .snap ⟨buildSnapshot b g st.pending_bet none, none,
                    some "no_tokens", none⟩)) ∧
    (st.pending_bet ≤ 0 →
      bridgeStep b st .removeToken =
        (st, .snap ⟨buildSnapshot b g st.pending_bet none, none,
                    some "no_bet_to_remove", none⟩)) := by
  obtain ⟨gm, p⟩ := st
  simp only [BridgeState.mk.injEq] at hg
  subst hg
  refine ⟨fun h1 => ?_, fun h1 h2 => ?_, fun h1 => ?_⟩ <;>
    simp only [bridgeStep] <;> dsimp only at * <;> split_ifs <;>
    first | rfl | omega

/-- Witness for C5: the max_bet_reached branch at a concrete input. -/
theorem insert_remove_error_cases_witness :
    bridgeStep demoBackend ⟨some demoG, 5⟩ .insertToken =
      (⟨some demoG, 5⟩,
       .snap ⟨buildSnapshot demoBackend demoG 5 none, none,
              some "max_bet_reached", none⟩) :=
  (insert_remove_error_cases demoBackend ⟨some demoG, 5⟩ demoG rfl).1
    (by decide)

/-- C2: for an active game, if the pending bet is positive and the
backend's place_bet reports failure, spin returns the snapshot with the
backend's error kind (default "bet_failed"), does not run the backend
spin (the resulting game state is exactly the post-place_bet state) and
leaves pending_bet unchanged; otherwise spin runs the backend spin,
resets pending_bet to 0 and returns a snapshot carrying the scoring
result and a grid_indices field. -/
theorem spin_behavior {σ : Type} (b : Backend σ) (st : BridgeState σ)
    (g : σ) (hg : st.game = some g) :
    (st.pending_bet > 0 →
      (b.placeBet g st.pending_bet).1.success = false →
      bridgeStep b st .spin =
        (⟨some (b.placeBet g st.pending_bet).2, st.pending_bet⟩,
         .snap ⟨buildSnapshot b (b.placeBet g st.pending_bet).2
                  st.pending_bet none,
                none,
                some ((b.placeBet g st.pending_bet).1.error.getD "bet_failed"),
                none⟩)) ∧
    (st.pending_bet > 0 →
      (b.placeBet g st.pending_bet).1.success = true →
      bridgeStep b st .spin =
        (⟨some (b.doSpin (b.placeBet g st.pending_bet).2).2, 0⟩,
         .snap ⟨buildSnapshot b (b.doSpin (b.placeBet g st.pending_bet).2).2
                  0 (some (b.doSpin (b.placeBet g st.pending_bet).2).1),
                none, none,
                some (gridIndicesOf b
                  (some (b.doSpin (b.placeBet g st.pending_bet).2).2))⟩)) ∧
    (st.pending_bet ≤ 0 →
      bridgeStep b st .spin =
        (⟨some (b.doSpin g).2, 0⟩,
         .snap ⟨buildSnapshot b (b.doSpin g).2 0 (some (b.doSpin g).1),
                none, none,
                some (gridIndicesOf b (some (b.doSpin g).2))⟩)) := by
  obtain ⟨gm, p⟩ := st
  simp only [BridgeState.mk.injEq] at hg
  subst hg
  dsimp only at *
  refine ⟨fun h1 h2 => ?_, fun h1 h2 => ?_, fun h1 => ?_⟩ <;>
    simp only [bridgeStep]
  · rw [if_pos h1, if_pos h2]
  · rw [if_pos h1, if_neg (by simp [h2])]
  · rw [if_neg (by omega)]

/-- Witness for C2: the bet-failure branch at a concrete input where the
pending bet exceeds the demo backend's token balance. -/
theorem spin_behavior_witness :
    bridgeStep demoBackend ⟨some demoG, 20⟩ .spin =
      (⟨some (demoBackend.placeBet demoG 20).2, 20⟩,
       .snap ⟨buildSnapshot demoBackend (demoBackend.placeBet demoG 20).2
                20 none,
              none,
              some ((demoBackend.placeBet demoG 20).1.error.getD "bet_failed"),
              none⟩) :=
  (spin_behavior demoBackend ⟨some demoG, 20⟩ demoG rfl).1
    (by decide) (by decide)

/-- C4: for every operation other than new_game, when no game exists the
bridge returns exactly the bare record with error "no_game" and leaves
its state unchanged; conversely a bare error result only ever arises from
a non-new_game operation with no game, and only with error "no_game". -/
theorem no_game_bare_error {σ : Type} (b : Backend σ) (st : BridgeState σ)
    (op : Op) :
    (op.isNewGame = false → st.game = none →
      bridgeStep b st op = (st, .bare "no_game")) ∧
    (∀ e : String, (bridgeStep b st op).2 = .bare e →
      op.isNewGame = false ∧ st.game = none ∧ e = "no_game") := by
  constructor
  · intro hng hnone
    obtain ⟨gm, p⟩ := st
    dsimp only at hnone
    subst hnone
    cases op <;> first | rfl | simp [Op.isNewGame] at hng
  · intro e he
    obtain ⟨gm, p⟩ := st
    cases op <;> cases gm <;>
      simp only [bridgeStep, Op.isNewGame] at he ⊢ <;>
      first
        | (split_ifs at he <;> simp_all)
        | simp_all

/-- Witness for C4: calling spin with no game on the demo backend. -/
theorem no_game_bare_error_witness :
    bridgeStep demoBackend ⟨none, 0⟩ .spin = (⟨none, 0⟩, .bare "no_game") :=
  (no_game_bare_error demoBackend ⟨none, 0⟩ .spin).1 rfl rfl

/-- C6: new_game resets pending_bet to 0, builds the GameManager with the
given seed when it is nonzero and with a random (None) seed when it is 0,
and returns a snapshot whose seed field equals the constructed game's
rng.seed; and new_game is the only operation whose snapshot carries a
seed field. -/
theorem new_game_seed {σ : Type} (b : Backend σ) (st : BridgeState σ)
    (seed : Int) :
    bridgeStep b st (.newGame seed) =
      (⟨some (b.mkGame (if seed ≠ 0 then some seed else none)), 0⟩,
       .snap ⟨buildSnapshot b
                (b.mkGame (if seed ≠ 0 then some seed else none)) 0 none,
              some (b.rngSeed
                (b.mkGame (if seed ≠ 0 then some seed else none))),
              none, none⟩) ∧
    (∀ op : Op, op.isNewGame = false → ∀ s : Snapshot,
      (bridgeStep b st op).2 = .snap s → s.seedField = none) := by
  constructor
  · rfl
  · intro op hng s hs
    obtain ⟨gm, p⟩ := st
    cases op <;> cases gm <;>
      simp only [bridgeStep, Op.isNewGame] at hs hng <;>
      (try split_ifs at hs) <;>
      first
        | exact Bool.noConfusion hng
        | exact BridgeResult.noConfusion hs
        | (injection hs with h ; subst h ; rfl)

/-- Witness for C6: the start_round snapshot on the demo backend carries
no seed field. -/
theorem new_game_seed_witness :
    (⟨buildSnapshot demoBackend (demoBackend.startRound demoG) 0 none,
      none, none, none⟩ : Snapshot).seedField = none :=
  (new_game_seed demoBackend ⟨some demoG, 0⟩ 7).2 .startRound rfl _ rfl

/-- Helper: a value returned by an association-list lookup is one of the
stored values. -/
lemma lookup_val_mem {α β : Type} [BEq α] (d : List (α × β)) (k : α) (v : β)
    (h : d.lookup k = some v) : v ∈ d.map Prod.snd := by
  induction d with
  | nil => simp [List.lookup] at h
  | cons p t ih =>
      obtain ⟨a, b⟩ := p
      rw [List.lookup_cons] at h
      cases hk : k == a with
      | true => rw [hk] at h; simp at h; simp [h]
      | false =>
          rw [hk] at h
          simp at h
          simp only [List.map_cons]
          exact List.mem_cons_of_mem _ (ih h)

/-- Helper: looking up a key absent from an association list yields none. -/
lemma lookup_eq_none_of_not_mem {α β : Type} [BEq α] [LawfulBEq α]
    (d : List (α × β)) (k : α) (h : k ∉ d.map Prod.fst) :
    d.lookup k = none := by
  induction d with
  | nil => simp [List.lookup]
  | cons p t ih =>
      obtain ⟨a, b⟩ := p
      simp only [List.map_cons, List.mem_cons] at h
      push_neg at h
      rw [List.lookup_cons]
      have hk : (k == a) = false := by simpa using h.1
      rw [hk]
      simpa using ih h.2

/-- Helper: indexing with default into a map over a range, in bounds. -/
lemma getD_map_range {α : Type} (f : ℕ → α) (n c : ℕ) (hc : c < n) (d : α) :
    (((List.range n).map f).getD c d) = f c := by
  rw [List.getD_eq_getElem _ _ (by simpa using hc)]
  simp

/-- Helper: every symbol index produced by cellIndex lies in 0..10. -/
lemma cellIndex_range (cell : Option String) :
    0 ≤ cellIndex cell ∧ cellIndex cell ≤ 10 := by
  cases cell with
  | none => exact ⟨by norm_num [cellIndex], by norm_num [cellIndex]⟩
  | some nm =>
      cases h : SYMBOL_TO_INDEX.lookup nm with
      | none => constructor <;> norm_num [cellIndex, h]
      | some v =>
          have hb : ∀ x ∈ SYMBOL_TO_INDEX.map Prod.snd,
              0 ≤ x ∧ x ≤ 10 := by decide
          simpa [cellIndex, h] using hb v (lookup_val_mem _ _ _ h)

/-- C3: on a non-empty grid of R rows each of length C,
_grid_to_indices returns C columns of R entries each, and entry [c][r]
is the symbol index of grid cell [r][c]: the output is the
[cols][rows] transpose of the stored [row][col] grid. -/
theorem grid_to_indices_transpose (grid : List (List (Option String)))
    (R C : Nat) (hne : grid ≠ [])
    (hR : grid.length = R)
    (hC : ∀ row ∈ grid, row.length = C) :
    (gridToIndices grid).length = C ∧
    (∀ c, c < C → ((gridToIndices grid).getD c []).length = R) ∧
    (∀ c r, c < C → r < R →
      ((gridToIndices grid).getD c []).getD r 0 =
        cellIndex ((grid.getD r []).getD c none)) := by
  obtain ⟨hd, tl, rfl⟩ := List.exists_cons_of_ne_nil hne
  have hhd : hd.length = C := hC hd (List.mem_cons_self _ _)
  have hgrid : gridToIndices (hd :: tl) =
      (List.range hd.length).map (fun col =>
        (List.range (hd :: tl).length).map (fun row =>
          cellIndex (((hd :: tl).getD row []).getD col none))) := rfl
  refine ⟨?_, ?_, ?_⟩
  · rw [hgrid]; simp [hhd]
  · intro c hc
    rw [hgrid, getD_map_range _ _ c (hhd ▸ hc)]
    simp [hR]
  · intro c r hc hr
    rw [hgrid, getD_map_range _ _ c (hhd ▸ hc),
        getD_map_range _ _ r (hR ▸ hr)]

/-- Witness for C3 at a concrete 2-row, 3-column grid. -/
theorem grid_to_indices_transpose_witness :
    (gridToIndices demoGrid).length = 3 ∧
    ((gridToIndices demoGrid).getD 0 []).length = 2 ∧
    ((gridToIndices demoGrid).getD 2 []).getD 1 0 =
      cellIndex ((demoGrid.getD 1 []).getD 2 none) := by
  obtain ⟨h1, h2, h3⟩ :=
    grid_to_indices_transpose demoGrid 2 3 (by decide) (by decide) (by decide)
  exact ⟨h1, h2 0 (by norm_num), h3 2 1 (by norm_num) (by norm_num)⟩

/-- C10: _grid_to_indices is total and range-bounded: it returns [] with
no game or an empty grid; on a rectangular grid every access grid[r][c]
it performs is in bounds; and every integer in its output lies in
0..10. -/
theorem grid_to_indices_safety {σ : Type} (b : Backend σ) :
    gridIndicesOf b none = [] ∧
    (∀ g : σ, b.grid g = [] → gridIndicesOf b (some g) = []) ∧
    (∀ grid : List (List (Option String)), grid ≠ [] →
      (∀ row ∈ grid, row.length = (grid.headD []).length) →
      ∀ r c : Nat, r < grid.length → c < (grid.headD []).length →
        ((grid.getD r [])[c]?).isSome = true) ∧
    (∀ grid : List (List (Option String)),
      ∀ colTiles ∈ gridToIndices grid, ∀ x ∈ colTiles,
        0 ≤ x ∧ x ≤ 10) := by
  refine ⟨rfl, ?_, ?_, ?_⟩
  · intro g hg
    simp [gridIndicesOf, gridToIndices, hg]
  · intro grid hne hrect r c hr hc
    have hmem : grid.getD r [] ∈ grid := by
      rw [List.getD_eq_getElem _ _ hr]
      exact List.getElem_mem _
    rw [List.getElem?_eq_getElem ((hrect _ hmem).symm ▸ hc)]
    rfl
  · intro grid colTiles hcol x hx
    cases grid with
    | nil => simp [gridToIndices] at hcol
    | cons hd tl =>
        have hcol' : colTiles ∈ (List.range hd.length).map (fun col =>
            (List.range (hd :: tl).length).map (fun row =>
              cellIndex (((hd :: tl).getD row []).getD col none))) := hcol
        obtain ⟨c, hc, rfl⟩ := List.mem_map.mp hcol'
        obtain ⟨r, hr, rfl⟩ := List.mem_map.mp hx
        exact cellIndex_range _

/-- Witness for C10: the range bound applied at a concrete column and
entry of the demo grid. -/
theorem grid_to_indices_safety_witness :
    0 ≤ (3 : Int) ∧ (3 : Int) ≤ 10 :=
  (grid_to_indices_safety demoBackend).2.2.2 demoGrid
    [3, 9] (by decide) 3 (by decide)

/-- C9: the symbol-name/index translation is a bijection on the
11-symbol palette, with get_symbol_index defaulting to 0 off the palette
and get_symbol_name defaulting to "cherry" off 0..10. -/
theorem symbol_index_bijection :
    (∀ nm ∈ SYMBOL_TO_INDEX.map Prod.fst,
      get_symbol_name (get_symbol_index nm) = nm) ∧
    (∀ i : Int, 0 ≤ i → i ≤ 10 →
      get_symbol_index (get_symbol_name i) = i) ∧
    (∀ nm : String, nm ∉ SYMBOL_TO_INDEX.map Prod.fst →
      get_symbol_index nm = 0) ∧
    (∀ i : Int, i < 0 ∨ 10 < i → get_symbol_name i = "cherry") := by
  refine ⟨by decide, ?_, ?_, ?_⟩
  · intro i h0 h10
    interval_cases i <;> decide
  · intro nm h
    rw [get_symbol_index, lookup_eq_none_of_not_mem _ _ h]
    rfl
  · intro i h
    have hkeys : i ∉ INDEX_TO_SYMBOL.map Prod.fst := by
      intro hmem
      have hb : ∀ x ∈ INDEX_TO_SYMBOL.map Prod.fst,
          0 ≤ x ∧ x ≤ 10 := by decide
      rcases hb i hmem with ⟨ha, hb'⟩
      rcases h with h | h <;> omega
    rw [get_symbol_name, lookup_eq_none_of_not_mem _ _ hkeys]
    rfl

/-- Witness for C9: the round trip at the palette name "seven". -/
theorem symbol_index_bijection_witness :
    get_symbol_name (get_symbol_index "seven") = "seven" :=
  symbol_index_bijection.1 "seven" (by decide)

/-- C8: every shop operation leaves the bridge's stored pending_bet
unchanged while building its returned snapshot with pending_bet 0, so a
subsequent get_snapshot reports the pending bet accumulated before the
shop operation, not 0. -/
theorem shop_ops_preserve_pending {σ : Type} (b : Backend σ)
    (st : BridgeState σ) (g : σ) (hg : st.game = some g)
    (op : Op) (hop : op.isShopOp = true) :
    (bridgeStep b st op).1.pending_bet = st.pending_bet ∧
    (∃ s : Snapshot, (bridgeStep b st op).2 = .snap s ∧
      s.base.pending_bet = 0) ∧
    (∃ s2 : Snapshot,
      (bridgeStep b (bridgeStep b st op).1 .getSnapshot).2 = .snap s2 ∧
      s2.base.pending_bet = st.pending_bet) := by
  obtain ⟨gm, p⟩ := st
  dsimp only at hg
  subst hg
  cases op <;>
    first
      | exact Bool.noConfusion hop
      | exact ⟨rfl, ⟨_, rfl, rfl⟩, ⟨_, rfl, rfl⟩⟩

/-- Witness for C8: enter_shop with a pending bet of 3 keeps it at 3. -/
theorem shop_ops_preserve_pending_witness :
    (bridgeStep demoBackend ⟨some demoG, 3⟩ .enterShop).1.pending_bet = 3 :=
  (shop_ops_preserve_pending demoBackend ⟨some demoG, 3⟩ demoG rfl
    .enterShop rfl).1

/-- C7: two bridges, each given new_game with the same nonzero seed and
then the same operation sequence, return identical serialized results at
every step.  The backend is modelled (per the spec's RNG contract) as a
deterministic function of the game state, so both sessions evolve
identically. -/
theorem two_run_determinism {σ : Type} (b : Backend σ) (S : Int)
    (_hS : S ≠ 0) (stA stB : BridgeState σ) (ops : List Op) :
    (bridgeStep b stA (.newGame S)).2 = (bridgeStep b stB (.newGame S)).2 ∧
    runTrace b (bridgeStep b stA (.newGame S)).1 ops =
      runTrace b (bridgeStep b stB (.newGame S)).1 ops :=
  ⟨rfl, rfl⟩

/-- Witness for C7: two demo sessions with seed 5 and a two-step
operation sequence. -/
theorem two_run_determinism_witness :
    (bridgeStep demoBackend ⟨none, 0⟩ (.newGame 5)).2 =
      (bridgeStep demoBackend ⟨some demoG, 3⟩ (.newGame 5)).2 ∧
    runTrace demoBackend (bridgeStep demoBackend ⟨none, 0⟩ (.newGame 5)).1
        [Op.startRound, Op.spin] =
      runTrace demoBackend
        (bridgeStep demoBackend ⟨some demoG, 3⟩ (.newGame 5)).1
        [Op.startRound, Op.spin] :=
  two_run_determinism demoBackend 5 (by decide) ⟨none, 0⟩ ⟨some demoG, 3⟩
    [Op.startRound, Op.spin]

end GameBridge
